import Mathlib

/-!
Verification of the intelligent_doorbell backend against its design
specification.  Each definition below is a shallow embedding of a function
from the Python sources (`Notification_Service.py`, `Camera_Controller.py`,
`app.py`, `db/model.py`); theorems at the end of the file settle the
spec claims against these embeddings.

Time values are modelled as microseconds since midnight (a `Nat`), which is
an exact order-embedding of Python `datetime.time` values (hour, minute,
second, microsecond compared lexicographically).
-/

namespace Doorbell

/-! ## Quiet-hours time parsing (`datetime.time.fromisoformat`)

`NotificationService.is_quiet_hours` parses the configured strings with
`time.fromisoformat`, which accepts `HH:MM` or `HH:MM:SS` (the repository
only ever stores `HH:MM`) and raises `ValueError` on anything malformed.
The raise is modelled as `none`. -/

/-- Value of a decimal digit character, `none` if not a digit. -/
def digitVal (c : Char) : Option Nat :=
  if c.isDigit then some (c.toNat - 48) else none

/-- Two-digit decimal field of an ISO time string. -/
def twoDigits (c1 c2 : Char) : Option Nat := do
  let d1 ← digitVal c1
  let d2 ← digitVal c2
  pure (10 * d1 + d2)

/-- Microseconds since midnight for an `HH:MM` or `HH:MM:SS` string;
`none` models the `ValueError` raised by `time.fromisoformat` on malformed
input (out-of-range fields included). -/
def time_fromisoformat (s : String) : Option Nat :=
  match s.toList with
  | [h1, h2, ':', m1, m2] => do
      let h ← twoDigits h1 h2
      let m ← twoDigits m1 m2
      if h < 24 ∧ m < 60 then pure ((h * 3600 + m * 60) * 1000000) else none
  | [h1, h2, ':', m1, m2, ':', s1, s2] => do
      let h ← twoDigits h1 h2
      let m ← twoDigits m1 m2
      let sec ← twoDigits s1 s2
      if h < 24 ∧ m < 60 ∧ sec < 60 then
        pure ((h * 3600 + m * 60 + sec) * 1000000)
      else none
  | _ => none

/-! ## User preferences (`NotificationService.__init__`) -/

/-- Quiet-hours window as stored in `user_preferences
['notification_quiet_hours']`: raw strings, parsed on every check. -/
structure QuietHours where
  start : String
  «end» : String
deriving DecidableEq

/-- Per-event-type toggles, `user_preferences['notification_types']`. -/
structure NotificationTypes where
  motion : Bool
  doorbell : Bool
  system_alerts : Bool
deriving DecidableEq

/-- The `user_preferences` dictionary of `NotificationService`. -/
structure UserPreferences where
  push_notifications : Bool
  email_notifications : Bool
  sms_notifications : Bool
  notification_quiet_hours : QuietHours
  notification_types : NotificationTypes
deriving DecidableEq

/-- The literal defaults assigned in `NotificationService.__init__`. -/
def defaultPreferences : UserPreferences :=
  { push_notifications := true
    email_notifications := true
    sms_notifications := false
    notification_quiet_hours := { start := "22:00", «end» := "07:00" }
    notification_types := { motion := true, doorbell := true, system_alerts := true } }

/-- Embedding of `NotificationService.is_quiet_hours`.  `now` is
`datetime.now().time()` in microseconds since midnight.  Any exception in
the body (in particular a `ValueError` from `time.fromisoformat`) is caught
and `False` is returned. -/
def is_quiet_hours (p : UserPreferences) (now : Nat) : Bool :=
  match time_fromisoformat p.notification_quiet_hours.start,
        time_fromisoformat p.notification_quiet_hours.«end» with
  | some start_time, some end_time =>
      if start_time ≤ end_time then
        decide (start_time ≤ now) && decide (now ≤ end_time)
      else
        decide (now ≥ start_time) || decide (now ≤ end_time)
  | _, _ => false

/-- Spec-side reading of the quiet-hours interval: inclusive bounds, the
interval wraps midnight when start > end. -/
def inQuietInterval (startT endT now : Nat) : Prop :=
  if startT ≤ endT then startT ≤ now ∧ now ≤ endT
  else now ≥ startT ∨ now ≤ endT

instance (startT endT now : Nat) : Decidable (inQuietInterval startT endT now) :=
  if h : startT ≤ endT then
    decidable_of_iff (startT ≤ now ∧ now ≤ endT)
      (by unfold inQuietInterval; rw [if_pos h])
  else
    decidable_of_iff (now ≥ startT ∨ now ≤ endT)
      (by unfold inQuietInterval; rw [if_neg h])

/-! ## Notification dispatch (`send_motion_alert` / `send_doorbell_alert`)

The delivery helpers (`send_push_notification`, `send_email_notification`,
`send_sms_notification`) catch their own exceptions and touch neither the
`events` nor the `notification_logs` table; an attempt is modelled as the
invocation of one of these channel helpers.  `store_event` inserts one row
into `events` with `notification_sent = True` hardcoded.  Nothing in
`NotificationService` ever inserts into `notification_logs`. -/

/-- Notification channel. -/
inductive Channel
  | push
  | email
  | sms
deriving DecidableEq, Repr

/-- Row inserted into the `events` table by `store_event`. -/
structure EventRow where
  event_type : String
  location : String
  photo_filename : Option String
  home_mode : Bool
  notification_sent : Bool
deriving DecidableEq

/-- Row of the `notification_logs` table (`db/model.py`,
`NotificationLog.FIELDS`; auxiliary text columns omitted). -/
structure NotifLogRow where
  id : Nat
  event_id : Option Nat
  notification_type : String
  recipient : String
  sent_at : Nat
  status : String
  retry_count : Nat
deriving DecidableEq

/-- Observable effects of one alert call: channel helpers invoked in program
order, rows inserted into `events`, rows inserted into `notification_logs`. -/
structure DispatchResult where
  attempts : List Channel
  events : List EventRow
  notifLogs : List NotifLogRow
deriving DecidableEq

/-- Channel helpers invoked by the fan-out section of the alert methods:
push if `push_notifications`, then email if `email_notifications`, then sms
if `sms_notifications`. -/
def enabledChannels (p : UserPreferences) : List Channel :=
  (if p.push_notifications then [Channel.push] else []) ++
  (if p.email_notifications then [Channel.email] else []) ++
  (if p.sms_notifications then [Channel.sms] else [])

/-- Embedding of `NotificationService.send_motion_alert`: return early if
the `motion` type is disabled, return early during quiet hours, otherwise
store one event row and invoke each enabled channel helper. -/
def send_motion_alert (p : UserPreferences) (now : Nat)
    (location : String) (home_mode : Bool) : DispatchResult :=
  if ¬ p.notification_types.motion then ⟨[], [], []⟩
  else if is_quiet_hours p now then ⟨[], [], []⟩
  else
    { attempts := enabledChannels p
      events := [⟨"motion", location, none, home_mode, true⟩]
      notifLogs := [] }

/-- Embedding of `NotificationService.send_doorbell_alert`: return early if
the `doorbell` type is disabled, otherwise store one event row and invoke
each enabled channel helper (no quiet-hours check on this path). -/
def send_doorbell_alert (p : UserPreferences) (location : String)
    (photo_filename : Option String) (home_mode : Bool) : DispatchResult :=
  if ¬ p.notification_types.doorbell then ⟨[], [], []⟩
  else
    { attempts := enabledChannels p
      events := [⟨"doorbell", location, photo_filename, home_mode, true⟩]
      notifLogs := [] }

/-! ## Home-mode inference (`app.py`, `determine_home_mode`) -/

/-- Embedding of `determine_home_mode`: `wifi_strength` is the reading from
`device_data` (in dBm, modelled as a rational), `current_home_mode` is
`system_state['home_mode']`. -/
def determine_home_mode (wifi_strength : Rat) (current_home_mode : Bool) : Bool :=
  if wifi_strength > -60 then true
  else if wifi_strength < -80 then false
  else current_home_mode

/-! ## Camera controller (`Camera_Controller.py`)

`CameraController.capture_photo` builds a filename from the trigger source
and a second-resolution timestamp, then either reads a frame from the open
camera and persists the enhanced frame with `cv2.imwrite` (whose success
flag it checks), or — when no camera is available — calls
`create_test_image` and returns the filename.  `create_test_image` catches
every exception internally, so a persist failure on the placeholder path is
invisible to `capture_photo`.  The environment outcomes (device present,
frame read, write success) are modelled as booleans fixed per call. -/

/-- Environment of one `capture_photo` call. -/
structure CameraEnv where
  is_initialized : Bool
  cameraOpened : Bool
  frameOk : Bool
  imwriteOk : Bool
  testImwriteRaises : Bool
deriving DecidableEq

/-- Text drawn into the placeholder image by `create_test_image` (the
`cv2.putText` calls, in order). -/
structure TestImage where
  lines : List String
deriving DecidableEq

/-- Content of the image saved in the upload folder. -/
inductive FileContent
  | realFrame
  | test (img : TestImage)
deriving DecidableEq

/-- Return value of `capture_photo` together with the file it left in the
upload folder, if any. -/
structure CaptureOutcome where
  result : Option String
  written : Option (String × FileContent)
deriving DecidableEq

/-- Placeholder image synthesized by `create_test_image`: `ts_display` is
`timestamp.strftime('%Y-%m-%d %H:%M:%S')`. -/
def create_test_image_img (trigger_source ts_display : String) : TestImage :=
  { lines := [ "Smart Doorbell System",
               "Trigger: " ++ trigger_source.toUpper,
               "Time: " ++ ts_display,
               "Location: Front Door",
               "Status: TEST MODE" ] }

/-- Filename built by `capture_photo`: `ts_compact` is
`timestamp.strftime('%Y%m%d_%H%M%S')`. -/
def photoFilename (trigger_source ts_compact : String) : String :=
  trigger_source ++ "_" ++ ts_compact ++ ".jpg"

/-- Embedding of `CameraController.capture_photo`.  Real-camera path: a
failed frame read or a false `cv2.imwrite` flag returns `None` and writes
nothing.  Placeholder path: `create_test_image` is called and the filename
is returned; an exception inside `create_test_image` is caught there, so
the filename is returned even when no file was written. -/
def capture_photo (env : CameraEnv) (trigger_source ts_compact ts_display : String) :
    CaptureOutcome :=
  let filename := photoFilename trigger_source ts_compact
  if env.is_initialized ∧ env.cameraOpened then
    if env.frameOk then
      if env.imwriteOk then ⟨some filename, some (filename, FileContent.realFrame)⟩
      else ⟨none, none⟩
    else ⟨none, none⟩
  else
    if env.testImwriteRaises then ⟨some filename, none⟩
    else ⟨some filename,
          some (filename, FileContent.test (create_test_image_img trigger_source ts_display))⟩

/-! ## Retention sweep (`app.py cleanup_old_photos`, `db/model.py
UserSession.cleanup_expired`)

`cleanup_old_photos` wraps the whole query-loop-commit sequence in a single
`try/except`; inside the loop each old photo's file is removed with
`os.remove` (if it exists) and its row is staged for deletion with
`db.session.delete`.  An exception raised by one `os.remove` therefore
jumps out of the loop before `db.session.commit()` runs: files removed so
far stay removed, but no staged row deletion is committed.  Timestamps are
modelled as seconds (an `Int`); the retention window is
`timedelta(days=30)` = 2592000 seconds. -/

/-- Row of the `Photo` table. -/
structure PhotoRow where
  filename : String
  timestamp : Int
deriving DecidableEq

/-- Environment of one sweep: the photo rows in query order, the files
existing in the upload folder, and which `os.remove` calls raise. -/
structure SweepEnv where
  photos : List PhotoRow
  files : List String
  removeRaises : String → Bool

/-- Final state of one sweep; `ok` is false when the sweep aborted with an
exception. -/
structure SweepResult where
  photos : List PhotoRow
  files : List String
  ok : Bool

/-- The per-photo loop of `cleanup_old_photos`: returns the files left on
disk and whether the loop ran to completion. -/
def sweepLoop (removeRaises : String → Bool) :
    List PhotoRow → List String → List String × Bool
  | [], files => (files, true)
  | p :: rest, files =>
      if p.filename ∈ files then
        if removeRaises p.filename then (files, false)
        else sweepLoop removeRaises rest (files.erase p.filename)
      else sweepLoop removeRaises rest files

/-- Embedding of `cleanup_old_photos`: `now` is `datetime.now()` in
seconds; `cutoff = now - timedelta(days=30)`; old photos are those with
`timestamp < cutoff`.  The staged row deletions take effect only if the
loop completes and `db.session.commit()` runs. -/
def cleanup_old_photos (env : SweepEnv) (now : Int) : SweepResult :=
  let cutoff := now - 2592000
  let old := env.photos.filter (fun p => decide (p.timestamp < cutoff))
  let swept := sweepLoop env.removeRaises old env.files
  if swept.2 then
    { photos := env.photos.filter (fun p => decide (¬ p.timestamp < cutoff))
      files := swept.1
      ok := true }
  else
    { photos := env.photos, files := swept.1, ok := false }

/-- Row of the `user_sessions` table (fields the sweep touches). -/
structure SessionRow where
  session_id : String
  expires_at : Int
  is_active : Bool
deriving DecidableEq

/-- Embedding of `UserSession.cleanup_expired`: the SQL
`UPDATE user_sessions SET is_active = 0 WHERE expires_at < ? AND
is_active = 1` with the current time as parameter (ISO-string comparison of
equal-format timestamps is chronological, modelled on `Int`). -/
def cleanup_expired (sessions : List SessionRow) (now : Int) : List SessionRow :=
  sessions.map (fun s =>
    if s.expires_at < now ∧ s.is_active then { s with is_active := false } else s)

/-! ## Retriable-failure query (`NotificationLog.get_failed_notifications`)

The SQL is `SELECT ... WHERE status = 'failed' AND retry_count < ? ORDER BY
sent_at ASC`, embedded as a filter followed by a sort on `sent_at`. -/

/-- Embedding of `NotificationLog.get_failed_notifications` over the rows
of the `notification_logs` table. -/
def get_failed_notifications (rows : List NotifLogRow) (max_retries : Nat) :
    List NotifLogRow :=
  List.insertionSort (fun a b => a.sent_at ≤ b.sent_at)
    (rows.filter (fun r => decide (r.status = "failed" ∧ r.retry_count < max_retries)))

/-! ## Capture serialization (`CameraController.camera_lock`)

The whole body of `capture_photo` runs under `with self.camera_lock:`, a
`threading.Lock` owned by the controller.  The lock protocol is modelled as
a transition system over thread phases: a thread requests a capture, may
acquire the lock only while no thread holds it, and releases it when its
capture finishes. -/

/-- Phase of one thread with respect to `capture_photo`. -/
inductive Phase
  | idle
  | waiting
  | capturing
deriving DecidableEq

/-- Global state of `n` threads sharing one `camera_lock`. -/
structure GateState (n : Nat) where
  phase : Fin n → Phase
  holder : Option (Fin n)

/-- All threads idle, lock free. -/
def initGate (n : Nat) : GateState n :=
  { phase := fun _ => Phase.idle, holder := none }

/-- Interleaving steps of the `camera_lock` protocol: `acquire` requires
the lock to be free (`threading.Lock` semantics), `release` is performed by
the holder on leaving the `with` block. -/
inductive GateStep {n : Nat} : GateState n → GateState n → Prop
  | request (s : GateState n) (t : Fin n) :
      s.phase t = Phase.idle →
      GateStep s ⟨Function.update s.phase t Phase.waiting, s.holder⟩
  | acquire (s : GateState n) (t : Fin n) :
      s.phase t = Phase.waiting → s.holder = none →
      GateStep s ⟨Function.update s.phase t Phase.capturing, some t⟩
  | release (s : GateState n) (t : Fin n) :
      s.phase t = Phase.capturing → s.holder = some t →
      GateStep s ⟨Function.update s.phase t Phase.idle, none⟩

/-- States reachable from the initial state by interleaving lock steps. -/
def GateReachable {n : Nat} (s : GateState n) : Prop :=
  Relation.ReflTransGen GateStep (initGate n) s

/-- Lock invariant: a thread is capturing exactly when it holds the lock. -/
def GateInv {n : Nat} (s : GateState n) : Prop :=
  ∀ t, s.phase t = Phase.capturing ↔ s.holder = some t

/-! ## Concrete instances used to exercise the theorems -/

/-- Preferences whose quiet-hours start string is not a valid time. -/
def malformedPrefs : UserPreferences :=
  { defaultPreferences with notification_quiet_hours := { start := "banana", «end» := "07:00" } }

/-- Two threads, thread 0 has requested a capture. -/
def gateDemo1 : GateState 2 :=
  { phase := Function.update (initGate 2).phase 0 Phase.waiting
    holder := (initGate 2).holder }

/-- Two threads, thread 0 has acquired the lock and is capturing. -/
def gateDemo2 : GateState 2 :=
  { phase := Function.update gateDemo1.phase 0 Phase.capturing
    holder := some 0 }

/-- Sweep scenario: two photos 30 days old, both files present, removing the
first file raises. -/
def sweepDemoEnv : SweepEnv :=
  { photos := [⟨"a.jpg", 0⟩, ⟨"b.jpg", 0⟩]
    files := ["a.jpg", "b.jpg"]
    removeRaises := fun f => decide (f = "a.jpg") }

/-- Sweep scenario: one old photo, no removal error. -/
def sweepOkEnv : SweepEnv :=
  { photos := [⟨"a.jpg", 0⟩]
    files := ["a.jpg"]
    removeRaises := fun _ => false }

/-! ## Helper lemmas -/

/-- Multiplicity of each channel in the fan-out list. -/
theorem enabledChannels_count (p : UserPreferences) :
    (enabledChannels p).count Channel.push = (if p.push_notifications then 1 else 0)
  ∧ (enabledChannels p).count Channel.email = (if p.email_notifications then 1 else 0)
  ∧ (enabledChannels p).count Channel.sms = (if p.sms_notifications then 1 else 0) := by
  rcases p with ⟨pu, em, sm, q, t⟩
  cases pu <;> cases em <;> cases sm <;> exact ⟨rfl, rfl, rfl⟩

/-- When both quiet-hours strings parse, `is_quiet_hours` decides
membership of the (possibly midnight-wrapping, inclusive) interval. -/
theorem is_quiet_hours_spec (p : UserPreferences) (now st en : Nat)
    (hs : time_fromisoformat p.notification_quiet_hours.start = some st)
    (he : time_fromisoformat p.notification_quiet_hours.«end» = some en) :
    is_quiet_hours p now = decide (inQuietInterval st en now) := by
  unfold is_quiet_hours inQuietInterval
  rw [hs, he]
  dsimp only
  by_cases h : st ≤ en
  · rw [if_pos h, ← Bool.decide_and]; simp [h]
  · rw [if_neg h, ← Bool.decide_or]; simp [h]

/-- A sweep loop whose removals never raise runs to completion. -/
theorem sweepLoop_complete (raises : String → Bool) (hok : ∀ f, raises f = false)
    (ps : List PhotoRow) : ∀ files : List String, (sweepLoop raises ps files).2 = true := by
  induction ps with
  | nil => intro files; rfl
  | cons p rest ih =>
      intro files
      unfold sweepLoop
      by_cases h : p.filename ∈ files
      · rw [if_pos h, if_neg (by simp [hok])]
        exact ih (files.erase p.filename)
      · rw [if_neg h]
        exact ih files

/-- The sweep loop only ever removes files. -/
theorem sweepLoop_subset (raises : String → Bool) (ps : List PhotoRow) :
    ∀ files : List String, (sweepLoop raises ps files).1 ⊆ files := by
  induction ps with
  | nil => intro files; exact fun a ha => ha
  | cons p rest ih =>
      intro files
      unfold sweepLoop
      by_cases h : p.filename ∈ files
      · rw [if_pos h]
        by_cases hr : raises p.filename
        · rw [if_pos hr]; exact fun a ha => ha
        · rw [if_neg hr]
          exact fun a ha => List.erase_subset _ _ (ih (files.erase p.filename) ha)
      · rw [if_neg h]; exact ih files

/-- After a completed, error-free loop over a duplicate-free file list, the
file of every processed photo is gone. -/
theorem sweepLoop_not_mem (raises : String → Bool) (hok : ∀ f, raises f = false)
    (ps : List PhotoRow) :
    ∀ files : List String, files.Nodup → ∀ p ∈ ps,
      p.filename ∉ (sweepLoop raises ps files).1 := by
  induction ps with
  | nil => intro files _ p hp; cases hp
  | cons q rest ih =>
      intro files hnd p hp
      unfold sweepLoop
      by_cases h : q.filename ∈ files
      · rw [if_pos h, if_neg (by simp [hok])]
        rcases List.mem_cons.mp hp with hpq | hpr
        · subst hpq
          intro hmem
          exact (List.Nodup.not_mem_erase hnd)
            (sweepLoop_subset raises rest (files.erase p.filename) hmem)
        · exact ih (files.erase q.filename) (List.Nodup.erase _ hnd) p hpr
      · rw [if_neg h]
        rcases List.mem_cons.mp hp with hpq | hpr
        · subst hpq
          intro hmem
          exact h (sweepLoop_subset raises rest files hmem)
        · exact ih files hnd p hpr

/-- A file that belongs to no processed photo survives the loop (whether or
not the loop aborts). -/
theorem sweepLoop_mem (raises : String → Bool) (ps : List PhotoRow) :
    ∀ (files : List String) (f : String), f ∈ files →
      (∀ p ∈ ps, p.filename ≠ f) → f ∈ (sweepLoop raises ps files).1 := by
  induction ps with
  | nil => intro files f hf _; exact hf
  | cons q rest ih =>
      intro files f hf hne
      unfold sweepLoop
      by_cases h : q.filename ∈ files
      · rw [if_pos h]
        by_cases hr : raises q.filename
        · rw [if_pos hr]; exact hf
        · rw [if_neg hr]
          refine ih (files.erase q.filename) f ?_ (fun p hp => hne p (List.mem_cons_of_mem q hp))
          exact (List.mem_erase_of_ne (fun hfe => (hne q (List.mem_cons_self q rest)) hfe.symm)).mpr hf
      · rw [if_neg h]
        exact ih files f hf (fun p hp => hne p (List.mem_cons_of_mem q hp))

/-- The initial gate state satisfies the lock invariant. -/
theorem gateInv_init (n : Nat) : GateInv (initGate n) := by
  intro t
  constructor
  · intro h; exact absurd h (by simp [initGate])
  · intro h; simp [initGate] at h

/-- Every lock-protocol step preserves the lock invariant. -/
theorem gateInv_step {n : Nat} {s s2 : GateState n}
    (hs : GateInv s) (st : GateStep s s2) : GateInv s2 := by
  cases st with
  | request t hph =>
      intro u
      dsimp only
      by_cases hu : u = t
      · subst hu
        rw [Function.update_same]
        constructor
        · intro h; cases h
        · intro h
          have := (hs u).mpr h
          rw [hph] at this
          cases this
      · rw [Function.update_noteq hu]
        exact hs u
  | acquire t hph hh =>
      intro u
      dsimp only
      by_cases hu : u = t
      · subst hu
        rw [Function.update_same]
        exact ⟨fun _ => rfl, fun _ => rfl⟩
      · rw [Function.update_noteq hu]
        constructor
        · intro h
          have := (hs u).mp h
          rw [hh] at this
          cases this
        · intro h
          have : t = u := Option.some.inj h
          exact absurd this.symm hu
  | release t hph hh =>
      intro u
      dsimp only
      by_cases hu : u = t
      · subst hu
        rw [Function.update_same]
        constructor
        · intro h; cases h
        · intro h; cases h
      · rw [Function.update_noteq hu]
        constructor
        · intro h
          have := (hs u).mp h
          rw [hh] at this
          exact absurd (Option.some.inj this).symm hu
        · intro h; cases h

/-- Every reachable gate state satisfies the lock invariant. -/
theorem gateInv_reachable {n : Nat} {s : GateState n}
    (h : GateReachable s) : GateInv s := by
  unfold GateReachable at h
  induction h with
  | refl => exact gateInv_init n
  | tail _ hbc ih => exact gateInv_step ih hbc

/-! ## Claim theorems -/

/-- C1: for a motion event whose quiet-hours strings parse, a wall-clock
time inside the configured interval (midnight-wrapping allowed, bounds
inclusive) yields zero notification attempts, and a time outside the
interval yields exactly one attempt per enabled channel (push, email, sms
counted individually). -/
theorem motion_dispatch_quiet_hours (p : UserPreferences) (now st en : Nat)
    (loc : String) (hm : Bool)
    (hs : time_fromisoformat p.notification_quiet_hours.start = some st)
    (he : time_fromisoformat p.notification_quiet_hours.«end» = some en) :
    (inQuietInterval st en now → (send_motion_alert p now loc hm).attempts = [])
  ∧ (¬ inQuietInterval st en now → p.notification_types.motion = true →
       (send_motion_alert p now loc hm).attempts = enabledChannels p
     ∧ (send_motion_alert p now loc hm).attempts.count Channel.push
         = (if p.push_notifications then 1 else 0)
     ∧ (send_motion_alert p now loc hm).attempts.count Channel.email
         = (if p.email_notifications then 1 else 0)
     ∧ (send_motion_alert p now loc hm).attempts.count Channel.sms
         = (if p.sms_notifications then 1 else 0)) := by
  have hq := is_quiet_hours_spec p now st en hs he
  constructor
  · intro hin
    by_cases hb : p.notification_types.motion
    · simp [send_motion_alert, hb, hq, hin]
    · simp [send_motion_alert, hb]
  · intro hnin hb
    have ha : (send_motion_alert p now loc hm).attempts = enabledChannels p := by
      simp [send_motion_alert, hb, hq, hnin]
    rw [ha]
    exact ⟨rfl, enabledChannels_count p⟩

/-- C1 witness: with the default preferences (quiet hours 22:00-07:00),
23:30 is suppressed and 12:00 fans out to the enabled channels. -/
theorem motion_dispatch_quiet_hours_witness :
    (send_motion_alert defaultPreferences 84600000000 "front door" true).attempts = []
  ∧ (send_motion_alert defaultPreferences 43200000000 "front door" true).attempts
      = enabledChannels defaultPreferences :=
  ⟨(motion_dispatch_quiet_hours defaultPreferences 84600000000 79200000000 25200000000
      "front door" true rfl rfl).1 (by decide),
   ((motion_dispatch_quiet_hours defaultPreferences 43200000000 79200000000 25200000000
      "front door" true rfl rfl).2 (by decide) rfl).1⟩

/-- C2: a signal above the near threshold (-60 dBm) resolves to home, one
below the far threshold (-80 dBm) resolves to away, and one in the
ambiguous middle band leaves the current mode unchanged, whatever the
previous mode was. -/
theorem updateFromSignal_hysteresis (w : Rat) (cur : Bool) :
    (w > -60 → determine_home_mode w cur = true)
  ∧ (w < -80 → determine_home_mode w cur = false)
  ∧ (-80 ≤ w → w ≤ -60 → determine_home_mode w cur = cur) := by
  refine ⟨?_, ?_, ?_⟩
  · intro h
    simp [determine_home_mode, h]
  · intro h
    have h1 : ¬ w > -60 := by linarith
    simp [determine_home_mode, h1, h]
  · intro h1 h2
    have g1 : ¬ w > -60 := not_lt.mpr h2
    have g2 : ¬ w < -80 := not_lt.mpr h1
    simp [determine_home_mode, g1, g2]

/-- C2 witness: -59 dBm resolves to home, -81 dBm to away, and -70 dBm
retains either previous mode. -/
theorem updateFromSignal_hysteresis_witness :
    determine_home_mode (-59) false = true
  ∧ determine_home_mode (-81) true = false
  ∧ determine_home_mode (-70) false = false
  ∧ determine_home_mode (-70) true = true :=
  ⟨(updateFromSignal_hysteresis (-59) false).1 (by norm_num),
   (updateFromSignal_hysteresis (-81) true).2.1 (by norm_num),
   (updateFromSignal_hysteresis (-70) false).2.2 (by norm_num) (by norm_num),
   (updateFromSignal_hysteresis (-70) true).2.2 (by norm_num) (by norm_num)⟩

/-- C3: with no capture device available, `capture_photo` returns a
non-None filename built from the trigger source and timestamp, and the
synthesized placeholder image carries the trigger source, the timestamp and
the TEST MODE marker; hardware absence alone never produces an error. -/
theorem capture_placeholder_nonnull (env : CameraEnv) (ts tc td : String)
    (h : ¬ (env.is_initialized ∧ env.cameraOpened)) :
    (capture_photo env ts tc td).result = some (photoFilename ts tc)
  ∧ ("Trigger: " ++ ts.toUpper) ∈ (create_test_image_img ts td).lines
  ∧ ("Time: " ++ td) ∈ (create_test_image_img ts td).lines
  ∧ "Status: TEST MODE" ∈ (create_test_image_img ts td).lines := by
  refine ⟨?_, ?_, ?_, ?_⟩
  · unfold capture_photo
    rw [if_neg h]
    by_cases hw : env.testImwriteRaises
    · rw [if_pos hw]
    · rw [if_neg hw]
  · simp [create_test_image_img]
  · simp [create_test_image_img]
  · simp [create_test_image_img]

/-- C3 witness: a doorbell-triggered capture with no camera and a healthy
disk returns the placeholder filename. -/
theorem capture_placeholder_nonnull_witness :
    (capture_photo ⟨false, false, false, false, false⟩ "doorbell" "20250101_120000"
       "2025-01-01 12:00:00").result
      = some (photoFilename "doorbell" "20250101_120000")
  ∧ "Status: TEST MODE"
      ∈ (create_test_image_img "doorbell" "2025-01-01 12:00:00").lines :=
  ⟨(capture_placeholder_nonnull ⟨false, false, false, false, false⟩ "doorbell"
      "20250101_120000" "2025-01-01 12:00:00" (by decide)).1,
   (capture_placeholder_nonnull ⟨false, false, false, false, false⟩ "doorbell"
      "20250101_120000" "2025-01-01 12:00:00" (by decide)).2.2.2⟩

/-- C4: an event whose type is disabled in the notification-type
preferences produces no channel attempt, no event row and no notification
log entry at all. -/
theorem disabled_type_silent (p : UserPreferences) (now : Nat) (loc : String)
    (pf : Option String) (hm : Bool) :
    (p.notification_types.doorbell = false →
        send_doorbell_alert p loc pf hm = ⟨[], [], []⟩)
  ∧ (p.notification_types.motion = false →
        send_motion_alert p now loc hm = ⟨[], [], []⟩) := by
  constructor
  · intro h
    simp [send_doorbell_alert, h]
  · intro h
    simp [send_motion_alert, h]

/-- C4 witness: preferences with every type disabled dispatch nothing for
either a doorbell or a motion event. -/
theorem disabled_type_silent_witness :
    send_doorbell_alert
        { defaultPreferences with
            notification_types := { motion := false, doorbell := false, system_alerts := false } }
        "front door" none true = ⟨[], [], []⟩
  ∧ send_motion_alert
        { defaultPreferences with
            notification_types := { motion := false, doorbell := false, system_alerts := false } }
        43200000000 "front door" true = ⟨[], [], []⟩ :=
  ⟨(disabled_type_silent _ 43200000000 "front door" none true).1 rfl,
   (disabled_type_silent _ 43200000000 "front door" none true).2 rfl⟩

/-- C5 counterexample: with the default preferences (push and email
enabled, sms disabled) a dispatched away-mode doorbell event makes two
channel attempts, yet the `notification_logs` table receives no row at all
- the claim requires each attempt's outcome to be recorded there. -/
theorem dispatch_logging_counterexample :
    (send_doorbell_alert defaultPreferences "front_door" none false).attempts.length = 2
  ∧ (send_doorbell_alert defaultPreferences "front_door" none false).notifLogs = [] :=
  ⟨rfl, rfl⟩

/-- C5 amended: a non-suppressed dispatch makes exactly one attempt per
enabled channel and inserts one row into the `events` table, but records no
attempt outcome in `NotificationLog`: dispatch never writes the
`notification_logs` table. -/
theorem dispatch_attempts_unlogged (p : UserPreferences) (now : Nat) (loc : String)
    (pf : Option String) (hm : Bool) :
    (p.notification_types.doorbell = true →
        (send_doorbell_alert p loc pf hm).attempts = enabledChannels p
      ∧ (send_doorbell_alert p loc pf hm).attempts.count Channel.push
          = (if p.push_notifications then 1 else 0)
      ∧ (send_doorbell_alert p loc pf hm).attempts.count Channel.email
          = (if p.email_notifications then 1 else 0)
      ∧ (send_doorbell_alert p loc pf hm).attempts.count Channel.sms
          = (if p.sms_notifications then 1 else 0)
      ∧ (send_doorbell_alert p loc pf hm).events.length = 1)
  ∧ (p.notification_types.motion = true → is_quiet_hours p now = false →
        (send_motion_alert p now loc hm).attempts = enabledChannels p)
  ∧ (send_doorbell_alert p loc pf hm).notifLogs = []
  ∧ (send_motion_alert p now loc hm).notifLogs = [] := by
  refine ⟨?_, ?_, ?_, ?_⟩
  · intro h
    have ha : (send_doorbell_alert p loc pf hm).attempts = enabledChannels p := by
      simp [send_doorbell_alert, h]
    rw [ha]
    refine ⟨rfl, (enabledChannels_count p).1, (enabledChannels_count p).2.1,
      (enabledChannels_count p).2.2, ?_⟩
    simp [send_doorbell_alert, h]
  · intro h hq
    simp [send_motion_alert, h, hq]
  · by_cases h : p.notification_types.doorbell <;> simp [send_doorbell_alert, h]
  · by_cases h : p.notification_types.motion
    · by_cases hq : is_quiet_hours p now <;> simp [send_motion_alert, h, hq]
    · simp [send_motion_alert, h]

/-- C5 amended witness: the away-mode doorbell of the counterexample
scenario, under the default preferences. -/
theorem dispatch_attempts_unlogged_witness :
    (send_doorbell_alert defaultPreferences "front_door" none false).attempts
      = enabledChannels defaultPreferences
  ∧ (send_doorbell_alert defaultPreferences "front_door" none false).events.length = 1 :=
  ⟨((dispatch_attempts_unlogged defaultPreferences 43200000000 "front_door" none false).1
      rfl).1,
   ((dispatch_attempts_unlogged defaultPreferences 43200000000 "front_door" none false).1
      rfl).2.2.2.2⟩

/-- C6 counterexample: two photos both older than the retention window,
removing the first file raises; the sweep aborts, so the second photo's row
and file both survive even though the claim requires them gone. -/
theorem sweep_error_abort_counterexample :
    (⟨"b.jpg", 0⟩ : PhotoRow) ∈ (cleanup_old_photos sweepDemoEnv 2592001).photos
  ∧ "b.jpg" ∈ (cleanup_old_photos sweepDemoEnv 2592001).files
  ∧ (0 : Int) < 2592001 - 2592000 := by decide

/-- C6 amended: when no removal raises, the sweep completes and deletes
exactly the photos older than 30 days together with their files;
`cleanup_expired` deactivates exactly the sessions with `expires_at < now`;
but an error in one deletion aborts the sweep: the remaining items are not
processed and no photo row deletion is committed. -/
theorem sweep_amended (env : SweepEnv) (now : Int) (hnd : env.files.Nodup)
    (hok : ∀ f, env.removeRaises f = false) :
    (cleanup_old_photos env now).ok = true
  ∧ (cleanup_old_photos env now).photos
      = env.photos.filter (fun p => decide (¬ p.timestamp < now - 2592000))
  ∧ (∀ p ∈ env.photos, p.timestamp < now - 2592000 →
        p.filename ∉ (cleanup_old_photos env now).files)
  ∧ (∀ f ∈ env.files, (∀ p ∈ env.photos, p.timestamp < now - 2592000 → p.filename ≠ f) →
        f ∈ (cleanup_old_photos env now).files)
  ∧ (∀ (env2 : SweepEnv) (now2 : Int), (cleanup_old_photos env2 now2).ok = false →
        (cleanup_old_photos env2 now2).photos = env2.photos)
  ∧ (∀ (sessions : List SessionRow) (s : SessionRow), s ∈ sessions →
        (s.expires_at < now →
            ({ s with is_active := false } : SessionRow) ∈ cleanup_expired sessions now)
      ∧ (¬ s.expires_at < now → s ∈ cleanup_expired sessions now)) := by
  have hc : (sweepLoop env.removeRaises
      (env.photos.filter (fun p => decide (p.timestamp < now - 2592000))) env.files).2
      = true :=
    sweepLoop_complete env.removeRaises hok _ env.files
  refine ⟨?_, ?_, ?_, ?_, ?_, ?_⟩
  · simp [cleanup_old_photos, hc]
  · simp [cleanup_old_photos, hc]
  · intro p hp hts
    have hfiles : (cleanup_old_photos env now).files
        = (sweepLoop env.removeRaises
            (env.photos.filter (fun q => decide (q.timestamp < now - 2592000))) env.files).1 := by
      simp [cleanup_old_photos, hc]
    rw [hfiles]
    exact sweepLoop_not_mem env.removeRaises hok _ env.files hnd p
      (List.mem_filter.mpr ⟨hp, by simp [hts]⟩)
  · intro f hf hne
    have hfiles : (cleanup_old_photos env now).files
        = (sweepLoop env.removeRaises
            (env.photos.filter (fun q => decide (q.timestamp < now - 2592000))) env.files).1 := by
      simp [cleanup_old_photos, hc]
    rw [hfiles]
    refine sweepLoop_mem env.removeRaises _ env.files f hf ?_
    intro p hp
    have := List.mem_filter.mp hp
    exact hne p this.1 (by simpa using this.2)
  · intro env2 now2 h
    by_cases hc2 : (sweepLoop env2.removeRaises
        (env2.photos.filter (fun p => decide (p.timestamp < now2 - 2592000))) env2.files).2
    · simp [cleanup_old_photos, hc2] at h
    · simp [cleanup_old_photos, hc2]
  · intro sessions s hsmem
    constructor
    · intro h
      refine List.mem_map.mpr ⟨s, hsmem, ?_⟩
      rcases s with ⟨sid, exp, act⟩
      cases act
      · simp
      · simp [h]
    · intro h
      refine List.mem_map.mpr ⟨s, hsmem, ?_⟩
      simp [h]

/-- C6 amended witness: an error-free sweep of one 30-day-old photo
completes, deletes its row and removes its file. -/
theorem sweep_amended_witness :
    (cleanup_old_photos sweepOkEnv 2592001).ok = true
  ∧ (cleanup_old_photos sweepOkEnv 2592001).photos = []
  ∧ "a.jpg" ∉ (cleanup_old_photos sweepOkEnv 2592001).files := by
  have h := sweep_amended sweepOkEnv 2592001 (by decide) (fun _ => rfl)
  exact ⟨h.1, by rw [h.2.1]; decide,
    h.2.2.1 ⟨"a.jpg", 0⟩ (by decide) (by decide)⟩

/-- C7 counterexample: on the placeholder path a failing persist
(`cv2.imwrite` raising inside `create_test_image`) is swallowed:
`capture_photo` still returns the filename instead of an error, with no
file on disk behind it. -/
theorem capture_persist_counterexample :
    (capture_photo ⟨false, false, false, false, true⟩ "doorbell" "20250101_120000"
        "2025-01-01 12:00:00").result
      = some (photoFilename "doorbell" "20250101_120000")
  ∧ (capture_photo ⟨false, false, false, false, true⟩ "doorbell" "20250101_120000"
        "2025-01-01 12:00:00").written = none :=
  ⟨rfl, rfl⟩

/-- C7 amended: in the real-camera path a persist failure returns an error
(None) and leaves no file, but in the placeholder path a persist failure is
swallowed inside `create_test_image` and the filename is returned anyway
(with no file written). -/
theorem capture_persist_amended (env : CameraEnv) (ts tc td : String) :
    (env.is_initialized = true → env.cameraOpened = true → env.frameOk = true →
       env.imwriteOk = false →
       (capture_photo env ts tc td).result = none
     ∧ (capture_photo env ts tc td).written = none)
  ∧ (¬ (env.is_initialized ∧ env.cameraOpened) → env.testImwriteRaises = true →
       (capture_photo env ts tc td).result = some (photoFilename ts tc)
     ∧ (capture_photo env ts tc td).written = none) := by
  constructor
  · intro h1 h2 h3 h4
    constructor <;> simp [capture_photo, h1, h2, h3, h4]
  · intro h hw
    simp only [capture_photo]
    rw [if_neg h, if_pos hw]
    exact ⟨rfl, rfl⟩

/-- C7 amended witness: a real-camera persist failure errors out; a
placeholder persist failure still returns the filename. -/
theorem capture_persist_amended_witness :
    ((capture_photo ⟨true, true, true, false, false⟩ "doorbell" "20250101_120000"
        "2025-01-01 12:00:00").result = none)
  ∧ ((capture_photo ⟨false, false, false, false, true⟩ "motion" "20250101_120000"
        "2025-01-01 12:00:00").result
      = some (photoFilename "motion" "20250101_120000")) :=
  ⟨((capture_persist_amended ⟨true, true, true, false, false⟩ "doorbell" "20250101_120000"
      "2025-01-01 12:00:00").1 rfl rfl rfl rfl).1,
   ((capture_persist_amended ⟨false, false, false, false, true⟩ "motion" "20250101_120000"
      "2025-01-01 12:00:00").2 (by decide) rfl).1⟩

/-- C8: the retriable query returns a permutation of exactly the rows with
status failed and retry count below the bound, sorted oldest-first on
`sent_at`; membership in the result is equivalent to being such a row of
the table. -/
theorem get_failed_notifications_spec (rows : List NotifLogRow) (max_retries : Nat) :
    List.Perm (get_failed_notifications rows max_retries)
      (rows.filter (fun r => decide (r.status = "failed" ∧ r.retry_count < max_retries)))
  ∧ List.Sorted (fun a b => a.sent_at ≤ b.sent_at)
      (get_failed_notifications rows max_retries)
  ∧ (∀ r ∈ get_failed_notifications rows max_retries,
        r ∈ rows ∧ r.status = "failed" ∧ r.retry_count < max_retries)
  ∧ (∀ r ∈ rows, r.status = "failed" → r.retry_count < max_retries →
        r ∈ get_failed_notifications rows max_retries) := by
  haveI : IsTotal NotifLogRow (fun a b => a.sent_at ≤ b.sent_at) :=
    ⟨fun a b => Nat.le_total a.sent_at b.sent_at⟩
  haveI : IsTrans NotifLogRow (fun a b => a.sent_at ≤ b.sent_at) :=
    ⟨fun _ _ _ hab hbc => Nat.le_trans hab hbc⟩
  refine ⟨List.perm_insertionSort _ _, List.sorted_insertionSort _ _, ?_, ?_⟩
  · intro r hr
    have hr2 : r ∈ rows.filter
        (fun r => decide (r.status = "failed" ∧ r.retry_count < max_retries)) :=
      (List.perm_insertionSort _ _).mem_iff.mp hr
    have h := List.mem_filter.mp hr2
    have h2 := of_decide_eq_true h.2
    exact ⟨h.1, h2.1, h2.2⟩
  · intro r hr h1 h2
    exact (List.perm_insertionSort _ _).mem_iff.mpr
      (List.mem_filter.mpr ⟨hr, by simp [h1, h2]⟩)

/-- C8 witness: of three rows, the two failed ones under the retry bound
are returned, oldest first; the sent one is excluded. -/
theorem get_failed_notifications_spec_witness :
    (⟨2, none, "push", "r", 3, "failed", 0⟩ : NotifLogRow) ∈
      get_failed_notifications
        [⟨1, none, "push", "r", 5, "failed", 0⟩,
         ⟨2, none, "push", "r", 3, "failed", 0⟩,
         ⟨3, none, "push", "r", 4, "sent", 0⟩] 3
  ∧ get_failed_notifications
        [⟨1, none, "push", "r", 5, "failed", 0⟩,
         ⟨2, none, "push", "r", 3, "failed", 0⟩,
         ⟨3, none, "push", "r", 4, "sent", 0⟩] 3
      = [⟨2, none, "push", "r", 3, "failed", 0⟩, ⟨1, none, "push", "r", 5, "failed", 0⟩] :=
  ⟨(get_failed_notifications_spec
      [⟨1, none, "push", "r", 5, "failed", 0⟩,
       ⟨2, none, "push", "r", 3, "failed", 0⟩,
       ⟨3, none, "push", "r", 4, "sent", 0⟩] 3).2.2.2
      ⟨2, none, "push", "r", 3, "failed", 0⟩ (by decide) rfl (by decide),
   by decide⟩

/-- C9: in the lock-protocol model of `camera_lock` (the whole body of
`capture_photo` runs inside the `with` block), every state reachable from
the all-idle initial state has at most one thread in the capturing phase:
two capturing threads are equal. -/
theorem capture_mutual_exclusion {n : Nat} (s : GateState n)
    (hs : GateReachable s) (t1 t2 : Fin n)
    (h1 : s.phase t1 = Phase.capturing) (h2 : s.phase t2 = Phase.capturing) :
    t1 = t2 := by
  have inv := gateInv_reachable hs
  have e1 := (inv t1).mp h1
  have e2 := (inv t2).mp h2
  exact Option.some.inj (e1.symm.trans e2)

/-- C9 witness: with two threads, after thread 0 requests and acquires the
lock, the mutual-exclusion theorem applies to the resulting reachable
state. -/
theorem capture_mutual_exclusion_witness : (0 : Fin 2) = 0 := by
  have st1 : GateStep (initGate 2) gateDemo1 :=
    GateStep.request (initGate 2) 0 rfl
  have st2 : GateStep gateDemo1 gateDemo2 :=
    GateStep.acquire gateDemo1 0 rfl rfl
  have hr : GateReachable gateDemo2 :=
    Relation.ReflTransGen.tail (Relation.ReflTransGen.tail Relation.ReflTransGen.refl st1) st2
  exact capture_mutual_exclusion gateDemo2 hr 0 0 rfl rfl

/-- C10: if either quiet-hours string fails to parse, `is_quiet_hours`
returns false (the exception is caught), so motion notifications go out to
every enabled channel instead of being suppressed. -/
theorem malformed_quiet_hours_disables_suppression (p : UserPreferences)
    (now : Nat) (loc : String) (hm : Bool)
    (h : time_fromisoformat p.notification_quiet_hours.start = none
       ∨ time_fromisoformat p.notification_quiet_hours.«end» = none) :
    is_quiet_hours p now = false
  ∧ (p.notification_types.motion = true →
       (send_motion_alert p now loc hm).attempts = enabledChannels p) := by
  have hq : is_quiet_hours p now = false := by
    unfold is_quiet_hours
    rcases hst : time_fromisoformat p.notification_quiet_hours.start with _ | st
    · rcases hen : time_fromisoformat p.notification_quiet_hours.«end» with _ | en <;> rfl
    · rcases hen : time_fromisoformat p.notification_quiet_hours.«end» with _ | en
      · rfl
      · rcases h with h | h
        · rw [hst] at h; exact Option.noConfusion h
        · rw [hen] at h; exact Option.noConfusion h
  refine ⟨hq, ?_⟩
  intro hb
  simp [send_motion_alert, hb, hq]

/-- C10 witness: quiet-hours start "banana" cannot parse; at 23:30 (inside
the intended 22:00-07:00 window) motion still fans out to the enabled
channels. -/
theorem malformed_quiet_hours_disables_suppression_witness :
    is_quiet_hours malformedPrefs 84600000000 = false
  ∧ (send_motion_alert malformedPrefs 84600000000 "front door" true).attempts
      = enabledChannels malformedPrefs :=
  ⟨(malformed_quiet_hours_disables_suppression malformedPrefs 84600000000
      "front door" true (Or.inl rfl)).1,
   (malformed_quiet_hours_disables_suppression malformedPrefs 84600000000
      "front door" true (Or.inl rfl)).2 rfl⟩

end Doorbell
